import Mathlib

/-!
Verification of the wedding-RSVP web application (routes.py, send_whatsapp.py,
models.py) against its natural-language specification.

The relevant request handlers are shallowly embedded as pure Lean functions:
the relational tables become lists of records, the process-global venue cache
becomes explicit state passing, flash messages become values, and Python
exceptions become explicit error results.  The embedding follows the Python
source line by line; comments record the Python behaviour being modelled at
every point where it is not obvious.
-/

set_option maxHeartbeats 1000000
set_option maxRecDepth 8000

namespace WeddingRsvp

/-! ## Data model (models.py) -/

/-- A row of the `guest` table (models.py, class Guest): id, name, optional
phone, rsvp status string (default "pendente"), optional group reference. -/
structure Guest where
  id : Nat
  name : String
  phone : Option String
  rsvp_status : String
  group_id : Option Nat
deriving Repr, DecidableEq

/-- A row of the `guest_group` table (models.py, class GuestGroup).  Only the
fields the verified routes read are modelled. -/
structure GuestGroup where
  id : Nat
  name : String
deriving Repr, DecidableEq

/-- Python `str.strip()`: drop leading and trailing whitespace. -/
def pyStrip (s : String) : String :=
  ⟨((s.data.dropWhile Char.isWhitespace).reverse.dropWhile
      Char.isWhitespace).reverse⟩

/-- Python truthiness of `g.phone` (an optional string column): `None` and the
empty string are falsy, any other string is truthy. -/
def hasPhone (g : Guest) : Bool :=
  match g.phone with
  | none => false
  | some s => s ≠ ""

/-- A flash message: text plus category ("success", "warning", "danger"). -/
structure Flash where
  message : String
  category : String
deriving Repr, DecidableEq

/-! ## Guest search (routes.py, `search_guest`, lines 102-121)

The route strips the posted name, returns an empty result without querying
when the stripped name is empty or shorter than 3 characters, and otherwise
issues `Guest.name.ilike(f"{name}%")` limited to 10 rows.  SQL `ILIKE`
treats `%` (any substring) and `_` (any single character) in the pattern as
wildcards and compares the remaining characters case-insensitively. -/

/-- SQL LIKE pattern matching, case-insensitive (ILIKE): `%` matches any
(possibly empty) substring — i.e. the rest of the pattern matches some
suffix of the text — `_` matches exactly one character, and any other
pattern character matches a single text character up to case. -/
def likeMatch : List Char → List Char → Bool
  | [], s => s.isEmpty
  | p :: ps, s =>
      if p = '%' then
        s.tails.any (fun suffix => likeMatch ps suffix)
      else
        match s with
        | [] => false
        | c :: cs => (p = '_' || p.toLower == c.toLower) && likeMatch ps cs

/-- `ilike pattern s`: the string `s` matches the SQL pattern, ignoring case. -/
def ilike (pattern s : String) : Bool :=
  likeMatch pattern.data s.data

/-- The group name joined into a search row: `g.group.name if g.group else None`.
A dangling `group_id` (no such group row) resolves to `None` as well. -/
def groupName (groups : List GuestGroup) (g : Guest) : Option String :=
  match g.group_id with
  | none => none
  | some gid => (groups.find? (fun gr => gr.id == gid)).map (fun gr => gr.name)

/-- One entry of the JSON array returned by `search_guest`: exactly the four
fields the route serialises (id, name, rsvp_status, group_name). -/
structure SearchRow where
  id : Nat
  name : String
  rsvp_status : String
  group_name : Option String
deriving Repr, DecidableEq

/-- `search_guest` (routes.py lines 102-121).  Returns the JSON rows together
with a flag recording whether a Data Store query was issued. -/
def search_guest (guests : List Guest) (groups : List GuestGroup)
    (rawName : String) : List SearchRow × Bool :=
  if pyStrip rawName = "" ∨ (pyStrip rawName).length < 3 then
    ([], false)
  else
    (((guests.filter (fun g => ilike (pyStrip rawName ++ "%") g.name)).take 10).map
        (fun g => ⟨g.id, g.name, g.rsvp_status, groupName groups g⟩),
     true)

/-! ## Guest-group lookup (routes.py, `get_guest_group`, lines 123-144)

`first_or_404()` raises `NotFound` when no guest has the requested id; that
exception is an `Exception`, so the route's blanket `except Exception` catches
it and the handler answers with the JSON body `{"error": "Erro interno"}` and
HTTP status 500 — the 404 never reaches the client. -/

/-- One entry of the `guests` array in the `get_guest_group` response. -/
structure GroupMember where
  id : Nat
  name : String
  rsvp_status : String
deriving Repr, DecidableEq

/-- The success body of `get_guest_group`. -/
structure GroupResponse where
  selected_guest_name : String
  guests : List GroupMember
deriving Repr, DecidableEq

/-- Outcome of a JSON route: a success body, or an error body plus HTTP status. -/
inductive RouteResult (α : Type) where
  | ok : α → RouteResult α
  | error : String → Nat → RouteResult α
deriving Repr, DecidableEq

/-- `get_guest_group` (routes.py lines 123-144). -/
def get_guest_group (guests : List Guest) (guest_id : Nat) :
    RouteResult GroupResponse :=
  match guests.find? (fun g => g.id == guest_id) with
  | none =>
      -- first_or_404 raises NotFound, swallowed by `except Exception` → 500
      .error "Erro interno" 500
  | some guest =>
      let members : List Guest :=
        match guest.group_id with
        | some gid => guests.filter (fun g => g.group_id == some gid)
        | none => [guest]
      .ok ⟨guest.name, members.map (fun g => ⟨g.id, g.name, g.rsvp_status⟩)⟩

/-! ## RSVP confirmation (routes.py, `confirm_rsvp`, lines 146-181)

The route reads the selected guest ids and, for each, the posted status
`rsvp_<id>`.  A pair is kept only when the status is exactly "confirmado" or
"nao_confirmado"; kept pairs are applied through one
`bulk_update_mappings` + single `commit` (one transaction), and the flashed
count is the number of kept pairs.  With no selection at all the route flashes
a "danger" message; with selections but no valid pair it flashes the distinct
"warning" message and performs no write. -/

/-- The status filter of `confirm_rsvp`: `status in ['confirmado', 'nao_confirmado']`. -/
def validRsvpStatus (s : String) : Bool :=
  s = "confirmado" || s = "nao_confirmado"

/-- `bulk_update_mappings(Guest, updates)`: each mapping in order performs
`UPDATE guest SET rsvp_status = ... WHERE id = ...`. -/
def applyRsvpUpdates (store : List Guest) (updates : List (Nat × String)) :
    List Guest :=
  updates.foldl
    (fun s u =>
      s.map (fun g => if g.id = u.1 then { g with rsvp_status := u.2 } else g))
    store

/-- Row-wise view of the bulk update: the sequence of `UPDATE ... WHERE id`
statements folded over a single row — every update naming the row's id
overwrites its status in order (the last one wins), updates naming other
ids leave it alone. -/
def rsvpApply (g : Guest) (updates : List (Nat × String)) : Guest :=
  updates.foldl
    (fun x u => if x.id = u.1 then { x with rsvp_status := u.2 } else x)
    g

/-- `confirm_rsvp` (routes.py lines 146-181): returns the guest table after the
transaction together with the flash message shown to the visitor. -/
def confirm_rsvp (store : List Guest) (selections : List (Nat × String)) :
    List Guest × Flash :=
  if selections = [] then
    (store, ⟨"Nenhum convidado selecionado.", "danger"⟩)
  else
    let updates := selections.filter (fun p => validRsvpStatus p.2)
    if updates ≠ [] then
      (applyRsvpUpdates store updates,
       ⟨"Confirmação registrada para " ++ toString updates.length ++
          " convidado(s)!", "success"⟩)
    else
      (store, ⟨"Nenhuma confirmação foi processada.", "warning"⟩)

/-! ## Group deletion (routes.py, `delete_group`, lines 442-465) -/

/-- `delete_group` (routes.py lines 442-465): refuses with a "danger" flash
(conflict) while at least one guest references the group, deleting nothing;
with zero referencing guests it deletes the group row and commits.  A missing
group id raises NotFound inside the `try`, which the blanket
`except Exception` turns into the generic "danger" flash with no change. -/
def delete_group (groups : List GuestGroup) (guests : List Guest)
    (group_id : Nat) : (List GuestGroup × List Guest) × Flash :=
  match groups.find? (fun gr => gr.id == group_id) with
  | none =>
      ((groups, guests), ⟨"Erro ao remover grupo: 404 Not Found", "danger"⟩)
  | some gr =>
      if (guests.filter (fun g => g.group_id == some group_id)).length > 0 then
        ((groups, guests),
         ⟨"Não é possível deletar o grupo " ++ gr.name ++ " pois há " ++
            toString (guests.filter (fun g => g.group_id == some group_id)).length ++
            " convidado(s) associado(s)!", "danger"⟩)
      else
        ((groups.filter (fun x => x.id != group_id), guests),
         ⟨"Grupo " ++ gr.name ++ " removido com sucesso!", "success"⟩)

/-! ## Admin guest edit (routes.py, `edit_guest`, lines 320-350)

`rsvp_status = request.form.get('rsvp_status', 'pendente')` — whatever string
the form carries is stored verbatim, with "pendente" only as the
missing-field default; no membership check against the status enum is made
anywhere on this path. -/

/-- Python `s.strip()` followed by the `or None` pattern used for optional
text columns: an empty (stripped) string is stored as NULL. -/
def optStr (s : String) : Option String :=
  if s = "" then none else some s

/-- Python `str.isdigit` on ASCII input: nonempty and all digits. -/
def pyIsDigit (s : String) : Bool :=
  s ≠ "" && s.data.all Char.isDigit

/-- Decimal value of a digit string (as Python `int` on `isdigit` input). -/
def digitsToNat (s : String) : Nat :=
  s.data.foldl (fun n c => n * 10 + (c.toNat - 48)) 0

/-- `group_id = int(group_id) if group_id and group_id.isdigit() else None`
where `group_id` is `request.form.get('group_id')` (absent → `None`). -/
def parseGroupId (form_group : Option String) : Option Nat :=
  match form_group with
  | none => none
  | some s => if s ≠ "" && pyIsDigit s then some (digitsToNat s) else none

/-- `edit_guest` (routes.py lines 320-350): `form_status` is
`request.form.get('rsvp_status')` as an optional field, defaulting to
"pendente" when absent.  A missing guest id raises NotFound inside the `try`,
caught by `except Exception` as a generic "danger" flash. -/
def edit_guest (store : List Guest) (guest_id : Nat)
    (form_name form_phone : String) (form_group : Option String)
    (form_status : Option String) : List Guest × Flash :=
  match store.find? (fun g => g.id == guest_id) with
  | none => (store, ⟨"Erro ao editar convidado: 404 Not Found", "danger"⟩)
  | some _ =>
      if pyStrip form_name = "" then
        (store, ⟨"Nome do convidado é obrigatório!", "danger"⟩)
      else
        (store.map (fun g =>
            if g.id = guest_id then
              { g with name := pyStrip form_name,
                       phone := optStr (pyStrip form_phone),
                       group_id := parseGroupId form_group,
                       rsvp_status := form_status.getD "pendente" }
            else g),
         ⟨"Convidado " ++ pyStrip form_name ++ " atualizado com sucesso!",
          "success"⟩)

/-! ## Date and time parsing (CPython `datetime.strptime`)

`update_venue` parses with the fixed formats `"%Y-%m-%d %H:%M"` and
`"%Y-%m-%d"`.  CPython's `_strptime` compiles these to regular expressions —
`%Y` is exactly four digits, `%m`/`%d`/`%H`/`%M` are one or two digits within
range — requires the whole string to be consumed, and finally constructs a
`date`/`datetime`, which rejects day numbers beyond the month length and the
year 0.  A failure raises `ValueError`, which the route turns into a
non-fatal "warning" flash. -/

/-- A calendar date as produced by `datetime.date`. -/
structure Ymd where
  year : Nat
  month : Nat
  day : Nat
deriving Repr, DecidableEq

/-- A wall-clock time as produced by `datetime.time` (seconds are zero for the
`"%H:%M"` format). -/
structure Hm where
  hour : Nat
  minute : Nat
deriving Repr, DecidableEq

/-- Gregorian leap year, as used by `datetime`. -/
def isLeapYear (y : Nat) : Bool :=
  (y % 4 == 0 && y % 100 != 0) || y % 400 == 0

/-- Days in a month, as enforced by `datetime.date`. -/
def daysInMonth (y m : Nat) : Nat :=
  if m = 2 then (if isLeapYear y then 29 else 28)
  else if m = 4 ∨ m = 6 ∨ m = 9 ∨ m = 11 then 30
  else 31

/-- `%Y`: exactly four digits, and `datetime.date` requires year ≥ 1. -/
def parseYear? (s : String) : Option Nat :=
  if s.length = 4 ∧ s.data.all Char.isDigit ∧ 1 ≤ digitsToNat s then
    some (digitsToNat s)
  else none

/-- `%m` / `%d` / `%H` / `%M`: one or two digits whose value lies in
`[lo, hi]`. -/
def parseField? (lo hi : Nat) (s : String) : Option Nat :=
  if (s.length = 1 ∨ s.length = 2) ∧ s.data.all Char.isDigit ∧
      lo ≤ digitsToNat s ∧ digitsToNat s ≤ hi then
    some (digitsToNat s)
  else none

/-- Split a character list at every occurrence of `sep` (Python
`str.split(sep)`): always returns at least one (possibly empty) part. -/
def splitOnChar (sep : Char) : List Char → List (List Char)
  | [] => [[]]
  | c :: cs =>
      match splitOnChar sep cs with
      | [] => [[c]]
      | x :: xs => if c = sep then [] :: x :: xs else (c :: x) :: xs

/-- `datetime.strptime(s, "%Y-%m-%d").date()`. -/
def strptimeDate (s : String) : Option Ymd :=
  match (splitOnChar '-' s.data).map String.mk with
  | [ys, ms, ds] => do
      let y ← parseYear? ys
      let m ← parseField? 1 12 ms
      let d ← parseField? 1 31 ds
      if d ≤ daysInMonth y m then some ⟨y, m, d⟩ else none
  | _ => none

/-- `"%H:%M"` parsing of the time component. -/
def strptimeTime (s : String) : Option Hm :=
  match (splitOnChar ':' s.data).map String.mk with
  | [hs, ms] => do
      let h ← parseField? 0 23 hs
      let m ← parseField? 0 59 ms
      some ⟨h, m⟩
  | _ => none

/-- `datetime.strptime(f"{event_date} {event_time}", "%Y-%m-%d %H:%M")`:
both components must parse for the combined string to match the format. -/
def strptimeDateTime (d t : String) : Option (Ymd × Hm) := do
  let dd ← strptimeDate d
  let tt ← strptimeTime t
  some (dd, tt)

/-! ## VenueInfo rows and the venue cache (models.py; routes.py lines 28-43) -/

/-- A row of the `venue_info` table.  `id = none` models a freshly constructed
`VenueInfo()` object not yet inserted (its `id` attribute is `None` until the
commit assigns one); likewise `name = none` before the route assigns it. -/
structure VenueRow where
  id : Option Nat
  name : Option String
  address : Option String
  map_link : Option String
  description : Option String
  date : Option Ymd
  time : Option Hm
  event_datetime : Option (Ymd × Hm)
  updated_at : Option Nat
deriving Repr, DecidableEq

/-- `VenueInfo()`: all attributes unset. -/
def freshVenueRow : VenueRow :=
  ⟨none, none, none, none, none, none, none, none, none⟩

/-- The module-level cache globals (routes.py lines 28-29).
`venue_cache = none` models the empty dict `{}` (no 'venue' key);
`venue_cache = some v` models `{'venue': v}` where `v` is the (possibly
absent) row returned by `VenueInfo.query.first()`.  Times are seconds since
the epoch. -/
structure VenueCacheState where
  venue_cache : Option (Option VenueRow)
  venue_cache_time : Option Nat
deriving Repr, DecidableEq

/-- Start-of-process cache state: `_venue_cache = {}`, `_venue_cache_time = None`. -/
def initialCacheState : VenueCacheState := ⟨none, none⟩

/-- The cache reset performed by `update_venue` after a successful commit:
`_venue_cache = {}; _venue_cache_time = None`. -/
def invalidate_venue_cache : VenueCacheState := ⟨none, none⟩

/-- `timedelta.seconds` of `now - t` for `t ≤ now`: the seconds-within-day
component of the elapsed time, NOT the total elapsed seconds. -/
def timedeltaSeconds (now t : Nat) : Nat :=
  (now - t) % 86400

/-- Result of one `get_cached_venue()` call: the returned row, the cache state
afterwards, and how many Data Store reads were issued (0 or 1). -/
structure CacheReadResult where
  venue : Option VenueRow
  state : VenueCacheState
  reads : Nat
deriving Repr, DecidableEq

/-- `get_cached_venue` (routes.py lines 31-43).  `db` is what
`VenueInfo.query.first()` would return at this moment; `now` is
`datetime.utcnow()`. -/
def get_cached_venue (db : Option VenueRow) (now : Nat)
    (st : VenueCacheState) : CacheReadResult :=
  match st.venue_cache_time with
  | some t =>
      -- `if _venue_cache_time and (now - _venue_cache_time).seconds < 300`
      if timedeltaSeconds now t < 300 then
        ⟨st.venue_cache.join, st, 0⟩
      else
        ⟨db, ⟨some db, some now⟩, 1⟩
  | none => ⟨db, ⟨some db, some now⟩, 1⟩

/-! ## Venue update (routes.py, `update_venue`, lines 669-729) -/

/-- Result of `update_venue`: the venue table after the commit, the cache
globals afterwards, and the flashes raised (in order). -/
structure UpdateVenueResult where
  rows : List VenueRow
  cache : VenueCacheState
  flashes : List Flash
deriving Repr, DecidableEq

/-- The primary key the commit assigns to an inserted row. -/
def nextVenueId (rows : List VenueRow) : Nat :=
  rows.foldl (fun m r => max m (r.id.getD 0)) 0 + 1

/-- The date/time block of `update_venue` (routes.py lines 696-709): returns
the venue object after the block together with any warning flashed. -/
def venueDateStep (venue : VenueRow) (event_date event_time : String) :
    VenueRow × List Flash :=
  if event_date ≠ "" ∧ event_time ≠ "" then
    match strptimeDateTime event_date event_time with
    | some dt =>
        ({ venue with event_datetime := some dt,
                      date := some dt.1, time := some dt.2 }, [])
    | none => (venue, [⟨"Formato de data ou hora inválido!", "warning"⟩])
  else if event_date ≠ "" then
    match strptimeDate event_date with
    | some d => ({ venue with date := some d }, [])
    | none => (venue, [⟨"Formato de data inválido!", "warning"⟩])
  else
    (venue, [])

/-- `update_venue` (routes.py lines 669-729).  The six string arguments are
the raw form fields; the route strips each.  `rows` is the `venue_info`
table (the row returned by `VenueInfo.query.first()` is its head). -/
def update_venue (now : Nat)
    (form_name form_address form_map_link form_description
      form_event_date form_event_time : String)
    (rows : List VenueRow) (cache : VenueCacheState) : UpdateVenueResult :=
  let name := pyStrip form_name
  let address := pyStrip form_address
  let map_link := pyStrip form_map_link
  let description := pyStrip form_description
  let event_date := pyStrip form_event_date
  let event_time := pyStrip form_event_time
  if name = "" then
    ⟨rows, cache, [⟨"Nome do local é obrigatório!", "danger"⟩]⟩
  else
    let venue := (rows.head?).getD freshVenueRow
    let venue := { venue with
      name := some name, address := optStr address,
      map_link := optStr map_link, description := optStr description }
    let step := venueDateStep venue event_date event_time
    let venue := { step.1 with updated_at := some now }
    let rows' :=
      match venue.id with
      | none => rows ++ [{ venue with id := some (nextVenueId rows) }]
      | some i => rows.map (fun r => if r.id = some i then venue else r)
    ⟨rows', invalidate_venue_cache,
     step.2 ++ [⟨"Informações do local atualizadas com sucesso!", "success"⟩]⟩

/-! ## WhatsApp dispatch (send_whatsapp.py)

`send_whatsapp_message` performs external I/O (the Twilio call); it is
modelled as a function argument `send` supplied to the definitions below,
returning the success flag and optional error text of the provider result
dict.  `send_bulk_whatsapp_messages` iterates `send` over its input list,
appending one per-item result and bumping the succeeded/failed counters; it
is polymorphic in the item type because the route actually passes `Guest`
objects where the docstring promises phone-number strings. -/

/-- The fields of the dict returned by `send_whatsapp_message` that the bulk
sender reads: `result['success']` and `result.get('error', None)`. -/
structure SendResult where
  success : Bool
  error : Option String
deriving Repr, DecidableEq

/-- One entry of the `results` list built by `send_bulk_whatsapp_messages`. -/
structure BulkItemResult (α : Type) where
  phone : α
  success : Bool
  error : Option String
deriving Repr, DecidableEq

/-- The dict returned by `send_bulk_whatsapp_messages`: keys `total`,
`successful`, `failed`, `results` (in insertion order). -/
structure BulkResults (α : Type) where
  total : Nat
  successful : Nat
  failed : Nat
  results : List (BulkItemResult α)
deriving Repr, DecidableEq

/-- `send_bulk_whatsapp_messages` (send_whatsapp.py lines 55-86). -/
def send_bulk_whatsapp_messages {α : Type} (send : α → String → SendResult)
    (phone_numbers : List α) (message : String) : BulkResults α :=
  phone_numbers.foldl
    (fun acc phone =>
      let result := send phone message
      { acc with
        results := acc.results ++ [⟨phone, result.success, result.error⟩],
        successful := if result.success then acc.successful + 1 else acc.successful,
        failed := if result.success then acc.failed else acc.failed + 1 })
    ⟨phone_numbers.length, 0, 0, []⟩

/-- The keys of the dict returned by `send_bulk_whatsapp_messages`, in
insertion order — what Python iterates over when the dict is unpacked. -/
def bulkResultKeys : List String :=
  ["total", "successful", "failed", "results"]

/-- Python iterable unpacking `a, b, c = xs`: succeeds exactly when the
iterable yields three items, otherwise raises `ValueError`. -/
def unpackThree (keys : List String) : Option (String × String × String) :=
  match keys with
  | [a, b, c] => some (a, b, c)
  | _ => none

/-! ## Message templates (send_whatsapp.py lines 89-149) -/

/-- The `confirmation_reminder` template text. -/
def confirmationReminderTemplate : String :=
  "\n🤍 Olá! Este é um lembrete gentil sobre nosso casamento.\n\n📅 Data: {date}\n⏰ Horário: {time}\n📍 Local: {venue}\n\nPor favor, confirme sua presença através do link: {rsvp_link}\n\nAguardamos você! 💕\n"

/-- The `thank_you` template text. -/
def thankYouTemplate : String :=
  "\n🤍 Muito obrigado(a) por confirmar sua presença em nosso casamento!\n\n📅 Data: {date}\n⏰ Horário: {time}\n📍 Local: {venue}\n\nEstamos ansiosos para celebrar este momento especial com você! 💕\n"

/-- The `venue_update` template text. -/
def venueUpdateTemplate : String :=
  "\n🤍 Informações importantes sobre nosso casamento:\n\n📅 Data: {date}\n⏰ Horário: {time}\n📍 Local: {venue}\n🗺️ Endereço: {address}\n\nNão esqueça de confirmar sua presença! 💕\n"

/-- The `gift_registry` template text. -/
def giftRegistryTemplate : String :=
  "\n🤍 Nosso casamento está chegando!\n\n🎁 Criamos uma lista de presentes para facilitar. Confira em: {gift_link}\n\n📅 Data: {date}\n⏰ Horário: {time}\n\nSua presença já é nosso maior presente! 💕\n"

/-- `WEDDING_MESSAGES` (send_whatsapp.py lines 89-133): the fixed template
dict.  Note there is no "invite" key. -/
def WEDDING_MESSAGES : List (String × String) :=
  [("confirmation_reminder", confirmationReminderTemplate),
   ("thank_you", thankYouTemplate),
   ("venue_update", venueUpdateTemplate),
   ("gift_registry", giftRegistryTemplate)]

/-- Dict lookup `d.get(k)` over an association list. -/
def lookupVar (vars : List (String × String)) (k : String) : Option String :=
  (vars.find? (fun p => p.1 == k)).map (fun p => p.2)

/-- Core of Python `str.format(**kwargs)` over a character list: `{name}` is
replaced by the named value (a missing name raises `KeyError` → `none`),
`{{` and `}}` are literal braces, and a stray brace raises `ValueError` →
`none`.  The first argument is fuel, always at least the number of characters
left, so the recursion is structural. -/
def pyFormatGo (vars : List (String × String)) :
    Nat → List Char → Option (List Char)
  | _, [] => some []
  | 0, _ :: _ => none
  | fuel + 1, '{' :: rest =>
      match rest with
      | '{' :: rest' => (fun l => '{' :: l) <$> pyFormatGo vars fuel rest'
      | _ =>
          let fieldName := rest.takeWhile (fun c => c ≠ '}')
          match rest.dropWhile (fun c => c ≠ '}') with
          | [] => none
          | _ :: rest' => do
              let v ← lookupVar vars (String.mk fieldName)
              let tail ← pyFormatGo vars fuel rest'
              pure (v.data ++ tail)
  | fuel + 1, '}' :: rest =>
      match rest with
      | '}' :: rest' => (fun l => '}' :: l) <$> pyFormatGo vars fuel rest'
      | _ => none
  | fuel + 1, c :: rest => (fun l => c :: l) <$> pyFormatGo vars fuel rest

/-- Python `template.format(**kwargs)`; `none` models a raised exception. -/
def pyFormat (vars : List (String × String)) (template : String) :
    Option String :=
  (pyFormatGo vars template.length template.data).map String.mk

/-- `get_wedding_message` (send_whatsapp.py lines 135-149): an unknown key
yields the default `""`, which is falsy, so the function returns `""`
without formatting. -/
def get_wedding_message (message_type : String)
    (kwargs : List (String × String)) : Option String :=
  let template := (lookupVar WEDDING_MESSAGES message_type).getD ""
  if template ≠ "" then pyFormat kwargs template
  else some ""

/-! ## The bulk-send route (routes.py, `send_whatsapp`, lines 751-799)

Two slips in this handler make the success path unreachable:
* on the template path, `get_wedding_message(message_type, venue)` passes the
  venue as a second positional argument to a `(message_type, **kwargs)`
  function — `TypeError`, caught by the blanket `except` before any send;
* on the custom-message path, `success_count, error_count, errors =
  send_bulk_whatsapp_messages(...)` tuple-unpacks the returned dict.
  Iterating the dict yields its four keys, so unpacking into three names
  raises `ValueError` — after the sends have already been performed — and
  the tally flashes (`success_count`/`error_count`/`errors[:2]`) are never
  reached. -/

/-- `send_whatsapp` (routes.py lines 751-799).  `selected` is the list of
guests the id query returns; `send` models the Twilio call; the result is the
list of flashes shown to the admin. -/
def send_whatsapp_route (send : Guest → String → SendResult)
    (selected : List Guest) (message_type form_custom_message : String) :
    List Flash :=
  let custom_message := pyStrip form_custom_message
  if selected = [] then
    [⟨"Nenhum convidado selecionado!", "warning"⟩]
  else
    let guests_without_phone := selected.filter (fun g => !(hasPhone g))
    let flashes₁ : List Flash :=
      if guests_without_phone ≠ [] then
        [⟨"Convidados sem telefone: " ++
            String.intercalate ", " (guests_without_phone.map (fun g => g.name)),
          "warning"⟩]
      else []
    let guests_with_phone := selected.filter hasPhone
    if guests_with_phone = [] then
      flashes₁ ++ [⟨"Nenhum convidado selecionado possui telefone!", "danger"⟩]
    else if message_type = "custom" ∧ custom_message ≠ "" then
      let _bulk := send_bulk_whatsapp_messages send guests_with_phone custom_message
      match unpackThree bulkResultKeys with
      | some _ =>
          -- dead branch: were the unpack to succeed, `success_count` would be
          -- the string "total" and `success_count > 0` would raise TypeError
          flashes₁ ++ [⟨"Erro geral no envio: unorderable types", "danger"⟩]
      | none =>
          flashes₁ ++
            [⟨"Erro geral no envio: too many values to unpack (expected 3)",
              "danger"⟩]
    else
      -- get_wedding_message(message_type, venue): TypeError before any send
      flashes₁ ++
        [⟨"Erro geral no envio: get_wedding_message() takes 1 positional argument but 2 were given",
          "danger"⟩]

/-! ## Spec-side predicates

These two definitions follow the specification's words, not the code; they
exist to be compared against the code-derived definitions above. -/

/-- The specification's "case-insensitive prefix match on the guest name":
the lowered search string is a prefix of the lowered guest name. -/
def lowerPrefix (q n : String) : Bool :=
  (q.data.map Char.toLower).isPrefixOf (n.data.map Char.toLower)

/-- A search string free of SQL LIKE wildcard characters. -/
def noWildcards (s : String) : Bool :=
  s.data.all (fun c => c ≠ '%' && c ≠ '_')

/-! ## Phone-blindness relation (for the non-interference claim) -/

/-- Two guest rows that agree on everything a public response can mention —
id, name, rsvp status and group reference — and may differ in phone. -/
def GuestEq (g₁ g₂ : Guest) : Prop :=
  g₁.id = g₂.id ∧ g₁.name = g₂.name ∧ g₁.rsvp_status = g₂.rsvp_status ∧
    g₁.group_id = g₂.group_id

/-- Two guest tables that differ at most in the guests' phone values. -/
def PhoneEquiv (s₁ s₂ : List Guest) : Prop :=
  List.Forall₂ GuestEq s₁ s₂

/-! ## Concrete fixtures used by the closed theorems and witnesses -/

/-- A guest with a phone whose sends will succeed. -/
def anaGuest : Guest := ⟨1, "Ana", some "+5511999990001", "pendente", none⟩

/-- A guest with a phone whose sends will fail. -/
def biaGuest : Guest := ⟨2, "Bia", some "+5511999990002", "pendente", none⟩

/-- A guest without a phone. -/
def caioGuest : Guest := ⟨3, "Caio", none, "pendente", none⟩

/-- A provider that rejects guest 2 and accepts everyone else. -/
def demoSend : Guest → String → SendResult :=
  fun g _ => if g.id = 2 then ⟨false, some "Twilio error 63016"⟩ else ⟨true, none⟩

/-- A three-guest store: Ana and Bia share group 10, Caio is ungrouped. -/
def demoStore : List Guest :=
  [⟨1, "Ana", some "+5511999990001", "pendente", some 10⟩,
   ⟨2, "Bia", none, "confirmado", some 10⟩,
   ⟨3, "Caio", none, "pendente", none⟩]

/-- A guest whose name matches the pattern `a_b%` but does not start with
the characters `a_b`. -/
def axbGuest : Guest := ⟨1, "AXB", none, "pendente", none⟩

/-- Two demo venue snapshots for the cache theorems. -/
def demoVenueA : VenueRow :=
  ⟨some 1, some "Espaço Jardim", none, none, none, none, none, none, none⟩

/-- A second, distinguishable snapshot. -/
def demoVenueB : VenueRow :=
  ⟨some 1, some "Salão Novo", none, none, none, none, none, none, none⟩

/-- An existing venue row for the upsert witness. -/
def demoVenueRow : VenueRow :=
  ⟨some 1, some "Old", none, none, none, some ⟨2024, 1, 2⟩, some ⟨9, 30⟩,
   some (⟨2024, 1, 2⟩, ⟨9, 30⟩), none⟩

/-- A lone pending guest row used by several witnesses. -/
def anaRow : Guest := ⟨1, "Ana", none, "pendente", none⟩

/-- A full variable assignment for the message templates. -/
def demoVars : List (String × String) :=
  [("date", "19 de Outubro de 2025"), ("time", "18:30"),
   ("venue", "Espaço Jardim"), ("address", "Rua A, 100"),
   ("rsvp_link", "https://example.com/rsvp"),
   ("gift_link", "https://example.com/gifts")]

/-! # Theorems -/

/-- Claim C1 (code bug, evaluated at the failing input): over three guests of
whom Caio lacks a phone, with a provider that rejects Bia, the dispatcher
`send_bulk_whatsapp_messages` attempts exactly one send per guest with a
phone and computes the aggregate total 2, succeeded 1, failed 1 with Bia's
failure reason recorded — one recipient's failure does not prevent the other
send — and the route flashes Caio as skipped; but the route then
tuple-unpacks the returned four-key dict into three names, which raises
ValueError, so every such request ends with the generic error flash and the
succeeded/failed tally and per-failure reasons are never surfaced. -/
theorem send_whatsapp_tally_never_surfaced :
    (send_bulk_whatsapp_messages demoSend [anaGuest, biaGuest] "Olá!").total = 2 ∧
    (send_bulk_whatsapp_messages demoSend [anaGuest, biaGuest] "Olá!").successful = 1 ∧
    (send_bulk_whatsapp_messages demoSend [anaGuest, biaGuest] "Olá!").failed = 1 ∧
    (send_bulk_whatsapp_messages demoSend [anaGuest, biaGuest] "Olá!").results =
      [⟨anaGuest, true, none⟩, ⟨biaGuest, false, some "Twilio error 63016"⟩] ∧
    unpackThree bulkResultKeys = none ∧
    send_whatsapp_route demoSend [anaGuest, biaGuest, caioGuest] "custom" "Olá!" =
      [⟨"Convidados sem telefone: Caio", "warning"⟩,
       ⟨"Erro geral no envio: too many values to unpack (expected 3)", "danger"⟩] := by
  decide

/-- Claim C2 (code bug, evaluated at the failing input): for a guest id not in
the store, `get_guest_group` answers 500 "Erro interno" — the NotFound raised
by `first_or_404` is swallowed by the route's blanket `except Exception` —
while the claim requires a 404-equivalent NotFound.  For existing guests the
claimed behaviour holds: a grouped guest yields every guest of the group, an
ungrouped one yields a singleton. -/
theorem get_guest_group_notfound_swallowed :
    get_guest_group [⟨2, "Bob", none, "pendente", none⟩] 1 =
      .error "Erro interno" 500 ∧
    get_guest_group [] 7 = .error "Erro interno" 500 ∧
    get_guest_group demoStore 1 =
      .ok ⟨"Ana", [⟨1, "Ana", "pendente"⟩, ⟨2, "Bia", "confirmado"⟩]⟩ ∧
    get_guest_group demoStore 3 = .ok ⟨"Caio", [⟨3, "Caio", "pendente"⟩]⟩ := by
  decide

/-- Claim C3 (code bug, evaluated at the failing input): after a fetch at
t = 1000 s, a call 200 s later is served from the cache with no Data Store
read, a call 400 s later issues a fresh read, and a call on an invalidated
cache issues a fresh read — those parts of the claim hold.  But a call
86410 s (one day and ten seconds) after the fetch is also served from the
stale cache with no read, because the code compares `timedelta.seconds`
(the seconds-within-day component, here 10) with 300 instead of the total
elapsed time. -/
theorem get_cached_venue_whole_days_ignored :
    (get_cached_venue (some demoVenueA) 1000 initialCacheState).reads = 1 ∧
    (get_cached_venue (some demoVenueA) 1000 initialCacheState).venue =
      some demoVenueA ∧
    (get_cached_venue (some demoVenueB) 1200
        (get_cached_venue (some demoVenueA) 1000 initialCacheState).state).reads = 0 ∧
    (get_cached_venue (some demoVenueB) 1200
        (get_cached_venue (some demoVenueA) 1000 initialCacheState).state).venue =
      some demoVenueA ∧
    (get_cached_venue (some demoVenueB) 1400
        (get_cached_venue (some demoVenueA) 1000 initialCacheState).state).reads = 1 ∧
    (get_cached_venue (some demoVenueB) 1200 invalidate_venue_cache).reads = 1 ∧
    (get_cached_venue (some demoVenueB) 87410
        (get_cached_venue (some demoVenueA) 1000 initialCacheState).state).reads = 0 ∧
    (get_cached_venue (some demoVenueB) 87410
        (get_cached_venue (some demoVenueA) 1000 initialCacheState).state).venue =
      some demoVenueA := by
  decide

/-- Claim C4 counterexample: the claimed fixed set names an "invite" template
(and "reminder", "thank-you", "venue-update", "gift-registry"), but the
template dict has no such keys — each of those strings falls through to the
empty string exactly like any unknown key — while the actual keys are
confirmation_reminder, thank_you, venue_update and gift_registry, and a real
key such as thank_you does render to a nonempty message. -/
theorem get_wedding_message_invite_missing :
    get_wedding_message "invite" demoVars = some "" ∧
    get_wedding_message "reminder" demoVars = some "" ∧
    get_wedding_message "thank-you" demoVars = some "" ∧
    get_wedding_message "venue-update" demoVars = some "" ∧
    get_wedding_message "gift-registry" demoVars = some "" ∧
    get_wedding_message "thank_you" demoVars ≠ some "" ∧
    WEDDING_MESSAGES.map Prod.fst =
      ["confirmation_reminder", "thank_you", "venue_update", "gift_registry"] := by
  decide

/-- Claim C4 (amended): the fixed template set is confirmation_reminder,
thank_you, venue_update and gift_registry; `get_wedding_message` renders a
key of that set by substituting the supplied variables into the named
template, and returns the empty string — not an error — for every key
outside the set. -/
theorem get_wedding_message_spec (key : String)
    (kwargs : List (String × String)) :
    (key ∉ WEDDING_MESSAGES.map Prod.fst →
      get_wedding_message key kwargs = some "") ∧
    (∀ tpl, (key, tpl) ∈ WEDDING_MESSAGES →
      get_wedding_message key kwargs = pyFormat kwargs tpl) := by
  constructor
  · intro hk
    have hfind : List.find? (fun p => p.1 == key) WEDDING_MESSAGES = none := by
      rw [List.find?_eq_none]
      intro p hp hbeq
      exact hk (List.mem_map.mpr ⟨p, hp, by simpa using hbeq⟩)
    simp [get_wedding_message, lookupVar, hfind]
  · intro tpl htpl
    simp only [WEDDING_MESSAGES, List.mem_cons, List.not_mem_nil, or_false,
      Prod.mk.injEq] at htpl
    rcases htpl with ⟨rfl, rfl⟩ | ⟨rfl, rfl⟩ | ⟨rfl, rfl⟩ | ⟨rfl, rfl⟩ <;> rfl

/-- Witness for C4's amended theorem: the route's default key "invite" falls
outside the set and yields the empty string, while "thank_you" renders its
template. -/
theorem get_wedding_message_spec_witness :
    get_wedding_message "invite" demoVars = some "" ∧
    get_wedding_message "thank_you" demoVars = pyFormat demoVars thankYouTemplate :=
  ⟨(get_wedding_message_spec "invite" demoVars).1 (by decide),
   (get_wedding_message_spec "thank_you" demoVars).2 thankYouTemplate (by decide)⟩

/-- If the pattern is a wildcard-free word followed by `%`, an ILIKE match
forces the word to be a case-insensitive prefix of the text. -/
theorem likeMatch_wildcardFree_prefix :
    ∀ (p s : List Char), (∀ c ∈ p, c ≠ '%' ∧ c ≠ '_') →
      likeMatch (p ++ ['%']) s = true →
      (p.map Char.toLower).isPrefixOf (s.map Char.toLower) = true := by
  intro p
  induction p with
  | nil =>
      intro s _ _
      simp [List.isPrefixOf]
  | cons c cs ih =>
      intro s hw hm
      obtain ⟨hc₁, hc₂⟩ := hw c (by simp)
      cases s with
      | nil =>
          rw [List.cons_append] at hm
          simp [likeMatch, hc₁] at hm
      | cons d ds =>
          rw [List.cons_append] at hm
          simp only [likeMatch, if_neg hc₁] at hm
          simp only [Bool.and_eq_true, Bool.or_eq_true, decide_eq_true_eq,
            beq_iff_eq] at hm
          obtain ⟨hcd | hcd, hrest⟩ := hm
          · exact absurd hcd hc₂
          · simp only [List.map_cons, List.isPrefixOf, hcd, beq_self_eq_true,
              Bool.true_and]
            exact ih ds (fun x hx => hw x (by simp [hx])) hrest

/-- Claim C8 (amended): a search string whose stripped form is shorter than
3 characters yields an empty result without querying the store; otherwise
the route queries and returns at most 10 guests matching the SQL ILIKE
pattern `search ++ "%"` — in which `%` and `_` act as wildcards — each
serialised as id, name, rsvp status and group name; and whenever the search
string contains no wildcard characters, every returned guest name has the
search string as a case-insensitive prefix. -/
theorem search_guest_spec (guests : List Guest) (groups : List GuestGroup)
    (raw : String) :
    ((pyStrip raw).length < 3 → search_guest guests groups raw = ([], false)) ∧
    (3 ≤ (pyStrip raw).length →
      (search_guest guests groups raw).2 = true ∧
      (search_guest guests groups raw).1.length ≤ 10 ∧
      (∀ r ∈ (search_guest guests groups raw).1, ∃ g ∈ guests,
        ilike (pyStrip raw ++ "%") g.name = true ∧
        r = ⟨g.id, g.name, g.rsvp_status, groupName groups g⟩) ∧
      (noWildcards (pyStrip raw) = true →
        ∀ r ∈ (search_guest guests groups raw).1, ∃ g ∈ guests,
          r.name = g.name ∧ lowerPrefix (pyStrip raw) g.name = true)) := by
  have hmem : ∀ r ∈ (search_guest guests groups raw).1, ∃ g ∈ guests,
      ilike (pyStrip raw ++ "%") g.name = true ∧
      r = ⟨g.id, g.name, g.rsvp_status, groupName groups g⟩ := by
    intro r hr
    unfold search_guest at hr
    split at hr
    · simp at hr
    · simp only at hr
      obtain ⟨g, hg, rfl⟩ := List.mem_map.mp hr
      have hg' := List.take_subset 10 _ hg
      obtain ⟨hgg, hpred⟩ := List.mem_filter.mp hg'
      exact ⟨g, hgg, hpred, rfl⟩
  refine ⟨?_, fun hlen => ⟨?_, ?_, hmem, ?_⟩⟩
  · intro h
    unfold search_guest
    rw [if_pos (Or.inr h)]
  · have hne : ¬(pyStrip raw = "" ∨ (pyStrip raw).length < 3) := by
      rintro (h | h)
      · rw [h] at hlen; simp at hlen
      · omega
    unfold search_guest
    rw [if_neg hne]
  · unfold search_guest
    split
    · simp
    · simp only [List.length_map, List.length_take]
      exact min_le_left _ _
  · intro hnw r hr
    obtain ⟨g, hg, hlike, rfl⟩ := hmem r hr
    refine ⟨g, hg, rfl, ?_⟩
    have hdata : (pyStrip raw ++ "%").data = (pyStrip raw).data ++ ['%'] := rfl
    have hchars : ∀ c ∈ (pyStrip raw).data, c ≠ '%' ∧ c ≠ '_' := by
      intro c hc
      have := List.all_eq_true.mp hnw c hc
      simpa using this
    unfold ilike at hlike
    rw [hdata] at hlike
    exact likeMatch_wildcardFree_prefix _ _ hchars hlike

/-- Claim C8 counterexample: searching for "a_b" (length 3, containing the
LIKE single-character wildcard) returns the guest named "AXB", whose name
does not start with "a_b" under case-insensitive comparison — so the route
is not a pure case-insensitive prefix match. -/
theorem search_guest_wildcard_counterexample :
    (search_guest [axbGuest] [] "a_b").1 = [⟨1, "AXB", "pendente", none⟩] ∧
    lowerPrefix "a_b" "AXB" = false := by
  decide

/-- Witness for C8's amended theorem at concrete inputs: a two-character
search returns nothing without querying, and a three-character search
queries with at most 10 results. -/
theorem search_guest_spec_witness :
    search_guest [axbGuest] [] "ab" = ([], false) ∧
    (search_guest [axbGuest] [] "AXB").2 = true ∧
    (search_guest [axbGuest] [] "AXB").1.length ≤ 10 :=
  ⟨(search_guest_spec [axbGuest] [] "ab").1 (by decide),
   ((search_guest_spec [axbGuest] [] "AXB").2 (by decide)).1,
   ((search_guest_spec [axbGuest] [] "AXB").2 (by decide)).2.1⟩

/-- Filtering by a predicate that reads only the public guest fields maps
phone-equivalent tables to phone-equivalent tables. -/
theorem phoneEquiv_filter_congr {p : Guest → Bool}
    (hp : ∀ a b, GuestEq a b → p a = p b) :
    ∀ {l₁ l₂ : List Guest}, PhoneEquiv l₁ l₂ →
      PhoneEquiv (l₁.filter p) (l₂.filter p) := by
  intro l₁ l₂ h
  induction h with
  | nil => exact List.Forall₂.nil
  | cons hab hl ih =>
      rename_i a b as bs
      rw [List.filter_cons, List.filter_cons, hp a b hab]
      cases hpb : p b
      · exact ih
      · exact List.Forall₂.cons hab ih

/-- Mapping by a function that reads only the public guest fields produces
identical lists from phone-equivalent tables. -/
theorem phoneEquiv_map_congr {β : Type} {f : Guest → β}
    (hf : ∀ a b, GuestEq a b → f a = f b) :
    ∀ {l₁ l₂ : List Guest}, PhoneEquiv l₁ l₂ → l₁.map f = l₂.map f := by
  intro l₁ l₂ h
  induction h with
  | nil => rfl
  | cons hab hl ih =>
      rename_i a b as bs
      simp only [List.map_cons, hf a b hab, ih]

/-- `find?` by a predicate on public fields yields `none` on both
phone-equivalent tables or corresponding guests. -/
theorem phoneEquiv_find? {p : Guest → Bool}
    (hp : ∀ a b, GuestEq a b → p a = p b) :
    ∀ {l₁ l₂ : List Guest}, PhoneEquiv l₁ l₂ →
      (l₁.find? p = none ∧ l₂.find? p = none) ∨
      (∃ a b, GuestEq a b ∧ l₁.find? p = some a ∧ l₂.find? p = some b) := by
  intro l₁ l₂ h
  induction h with
  | nil => exact Or.inl ⟨rfl, rfl⟩
  | cons hab hl ih =>
      rename_i a b as bs
      cases hpa : p a
      · have hpb : p b = false := by rw [← hp a b hab]; exact hpa
        rw [List.find?_cons_of_neg _ (by simp [hpa]),
          List.find?_cons_of_neg _ (by simp [hpb])]
        exact ih
      · have hpb : p b = true := by rw [← hp a b hab]; exact hpa
        rw [List.find?_cons_of_pos _ hpa, List.find?_cons_of_pos _ hpb]
        exact Or.inr ⟨a, b, hab, rfl, rfl⟩

/-- Claim C9: the public search and group-lookup responses are built from id,
name, rsvp status and group name only — two stores that differ at most in
guests' phone values produce identical responses for every request. -/
theorem public_responses_phone_blind (s₁ s₂ : List Guest)
    (h : PhoneEquiv s₁ s₂) :
    (∀ groups raw, search_guest s₁ groups raw = search_guest s₂ groups raw) ∧
    (∀ guest_id, get_guest_group s₁ guest_id = get_guest_group s₂ guest_id) := by
  constructor
  · intro groups raw
    unfold search_guest
    split
    · rfl
    · have h₁ := phoneEquiv_filter_congr
        (p := fun g => ilike (pyStrip raw ++ "%") g.name)
        (fun a b hab => by simp only [hab.2.1]) h
      have h₂ := List.forall₂_take 10 h₁
      have h₃ := phoneEquiv_map_congr
        (f := fun g =>
          (⟨g.id, g.name, g.rsvp_status, groupName groups g⟩ : SearchRow))
        (fun a b hab => by
          obtain ⟨hid, hname, hrsvp, hgrp⟩ := hab
          simp only [hid, hname, hrsvp, groupName, hgrp]) h₂
      rw [h₃]
  · intro gid
    unfold get_guest_group
    rcases phoneEquiv_find? (p := fun g => g.id == gid)
        (fun a b hab => by simp only [hab.1]) h with ⟨h₁, h₂⟩ | ⟨a, b, hab, h₁, h₂⟩
    · rw [h₁, h₂]
    · rw [h₁, h₂]
      obtain ⟨hid, hname, hrsvp, hgrp⟩ := hab
      have hproj : ∀ x y, GuestEq x y →
          (⟨x.id, x.name, x.rsvp_status⟩ : GroupMember) =
            ⟨y.id, y.name, y.rsvp_status⟩ := by
        intro x y hxy
        obtain ⟨h1, h2, h3, _⟩ := hxy
        simp only [h1, h2, h3]
      cases hga : a.group_id with
      | none =>
          have hgb : b.group_id = none := by rw [← hgrp]; exact hga
          simp only [hga, hgb, List.map_cons, List.map_nil, hid, hname, hrsvp]
      | some gid' =>
          have hgb : b.group_id = some gid' := by rw [← hgrp]; exact hga
          have hfil := phoneEquiv_filter_congr
            (p := fun g => g.group_id == some gid')
            (fun x y hxy => by simp only [hxy.2.2.2]) h
          have hmap := phoneEquiv_map_congr
            (f := fun g => (⟨g.id, g.name, g.rsvp_status⟩ : GroupMember))
            (fun x y hxy => hproj x y hxy) hfil
          simp only [hga, hgb, hname, hmap]

/-- Witness for C9 at concrete stores: the same guest with two different
phone numbers produces identical search and group-lookup responses. -/
theorem public_responses_phone_blind_witness :
    search_guest [⟨1, "Ana", some "+111", "pendente", none⟩] []
        "Ana" =
      search_guest [⟨1, "Ana", some "+222", "pendente", none⟩] []
        "Ana" ∧
    get_guest_group [⟨1, "Ana", some "+111", "pendente", none⟩] 1 =
      get_guest_group [⟨1, "Ana", some "+222", "pendente", none⟩] 1 :=
  ⟨(public_responses_phone_blind _ _
      (List.Forall₂.cons ⟨rfl, rfl, rfl, rfl⟩ List.Forall₂.nil)).1 [] "Ana",
   (public_responses_phone_blind _ _
      (List.Forall₂.cons ⟨rfl, rfl, rfl, rfl⟩ List.Forall₂.nil)).2 1⟩

/-- `applyRsvpUpdates` never changes the number of rows. -/
theorem applyRsvpUpdates_length :
    ∀ (us : List (Nat × String)) (s : List Guest),
      (applyRsvpUpdates s us).length = s.length := by
  intro us
  induction us with
  | nil => intro s; rfl
  | cons u us ih =>
      intro s
      have hstep : applyRsvpUpdates s (u :: us) =
          applyRsvpUpdates
            (s.map fun g =>
              if g.id = u.1 then { g with rsvp_status := u.2 } else g) us := rfl
      rw [hstep, ih, List.length_map]

/-- Row-wise effect of `applyRsvpUpdates`: every row survives in place with
its id; a row whose id no update names is unchanged; and a change of status
always copies the status of one of the updates. -/
theorem applyRsvpUpdates_getElem? :
    ∀ (us : List (Nat × String)) (s : List Guest) (k : Nat) (g : Guest),
      s[k]? = some g →
      ∃ g', (applyRsvpUpdates s us)[k]? = some g' ∧
        g'.id = g.id ∧
        (g.id ∉ us.map Prod.fst → g' = g) ∧
        (g'.rsvp_status = g.rsvp_status ∨ ∃ u ∈ us, g'.rsvp_status = u.2) := by
  intro us
  induction us with
  | nil =>
      intro s k g hk
      exact ⟨g, hk, rfl, fun _ => rfl, Or.inl rfl⟩
  | cons u us ih =>
      intro s k g hk
      have hstep : applyRsvpUpdates s (u :: us) =
          applyRsvpUpdates
            (s.map fun x =>
              if x.id = u.1 then { x with rsvp_status := u.2 } else x) us := rfl
      have hk' : (s.map fun x =>
          if x.id = u.1 then { x with rsvp_status := u.2 } else x)[k]? =
          some (if g.id = u.1 then { g with rsvp_status := u.2 } else g) := by
        rw [List.getElem?_map, hk]; rfl
      obtain ⟨g', hg', hid, huntouched, hstatus⟩ := ih _ k _ hk'
      refine ⟨g', by rw [hstep]; exact hg', ?_, ?_, ?_⟩
      · rw [hid]
        by_cases hgid : g.id = u.1 <;> simp [hgid]
      · intro hnot
        have h1 : g.id ≠ u.1 := fun he => hnot (by simp [he])
        have h2 : g.id ∉ us.map Prod.fst := fun hm => hnot (by simp [hm])
        rw [if_neg h1] at huntouched
        exact huntouched h2
      · by_cases hgid : g.id = u.1
        · rw [if_pos hgid] at hstatus
          rcases hstatus with h | ⟨u', hu', he⟩
          · exact Or.inr ⟨u, by simp, h⟩
          · exact Or.inr ⟨u', by simp [hu'], he⟩
        · rw [if_neg hgid] at hstatus
          rcases hstatus with h | ⟨u', hu', he⟩
          · exact Or.inl h
          · exact Or.inr ⟨u', by simp [hu'], he⟩

/-- Row-wise commutation of the bulk update: the k-th row of the updated
table is exactly the k-th input row with the whole update sequence folded
over it. -/
theorem applyRsvpUpdates_getElem?_eq :
    ∀ (us : List (Nat × String)) (s : List Guest) (k : Nat) (g : Guest),
      s[k]? = some g →
      (applyRsvpUpdates s us)[k]? = some (rsvpApply g us) := by
  intro us
  induction us with
  | nil => intro s k g hk; exact hk
  | cons u us ih =>
      intro s k g hk
      have hstep : applyRsvpUpdates s (u :: us) =
          applyRsvpUpdates
            (s.map fun x =>
              if x.id = u.1 then { x with rsvp_status := u.2 } else x) us := rfl
      have hk' : (s.map fun x =>
          if x.id = u.1 then { x with rsvp_status := u.2 } else x)[k]? =
          some (if g.id = u.1 then { g with rsvp_status := u.2 } else g) := by
        rw [List.getElem?_map, hk]; rfl
      rw [hstep, ih _ k _ hk']
      rfl

/-- Updates that can only rewrite a row's current status leave it fixed. -/
theorem rsvpApply_fixed :
    ∀ (us : List (Nat × String)) (g : Guest),
      (∀ u ∈ us, u.1 = g.id → u.2 = g.rsvp_status) →
      rsvpApply g us = g := by
  intro us
  induction us with
  | nil => intro g _; rfl
  | cons u us ih =>
      intro g h
      have hstep : rsvpApply g (u :: us) =
          rsvpApply (if g.id = u.1 then { g with rsvp_status := u.2 } else g)
            us := rfl
      rw [hstep]
      by_cases hgid : g.id = u.1
      · have hu2 : u.2 = g.rsvp_status := h u (by simp) hgid.symm
        rw [if_pos hgid, hu2]
        have heta : ({ g with rsvp_status := g.rsvp_status } : Guest) = g := rfl
        rw [heta]
        exact ih g (fun u' hu' => h u' (by simp [hu']))
      · rw [if_neg hgid]
        exact ih g (fun u' hu' => h u' (by simp [hu']))

/-- A pair that names a row's id and is the only status the updates select
for that id ends up applied: the row leaves the fold carrying that status. -/
theorem rsvpApply_applies :
    ∀ (us : List (Nat × String)) (g : Guest) (st : String),
      (g.id, st) ∈ us →
      (∀ u ∈ us, u.1 = g.id → u.2 = st) →
      rsvpApply g us = { g with rsvp_status := st } := by
  intro us
  induction us with
  | nil => intro g st hmem _; simp at hmem
  | cons u us ih =>
      intro g st hmem hall
      have hstep : rsvpApply g (u :: us) =
          rsvpApply (if g.id = u.1 then { g with rsvp_status := u.2 } else g)
            us := rfl
      rw [hstep]
      by_cases hgid : g.id = u.1
      · have hu2 : u.2 = st := hall u (by simp) hgid.symm
        rw [if_pos hgid, hu2]
        exact rsvpApply_fixed us { g with rsvp_status := st }
          (fun u' hu' he => hall u' (by simp [hu']) he)
      · rw [if_neg hgid]
        rcases List.mem_cons.mp hmem with heq | hmem'
        · exact absurd (congrArg Prod.fst heq) hgid
        · exact ih g st hmem' (fun u' hu' => hall u' (by simp [hu']))

/-- Claim C5: `confirm_rsvp` silently drops pairs whose status is outside
{confirmado, nao_confirmado} (they neither error nor touch any row), applies
every remaining valid pair in one batch — each targeted row leaves the
update carrying the status its valid pair selected — reports exactly the
number of valid pairs, and answers a submission with zero valid pairs with
the distinct "nothing processed" warning rather than an error. -/
theorem confirm_rsvp_spec (store : List Guest)
    (selections : List (Nat × String)) (hne : selections ≠ []) :
    (selections.filter (fun p => validRsvpStatus p.2) = [] →
      confirm_rsvp store selections =
        (store, ⟨"Nenhuma confirmação foi processada.", "warning"⟩)) ∧
    (selections.filter (fun p => validRsvpStatus p.2) ≠ [] →
      (confirm_rsvp store selections).2 =
        ⟨"Confirmação registrada para " ++
            toString (selections.filter (fun p => validRsvpStatus p.2)).length ++
            " convidado(s)!", "success"⟩) ∧
    (confirm_rsvp store selections).1.length = store.length ∧
    (∀ (k : Nat) (g : Guest), store[k]? = some g →
      ∃ g', (confirm_rsvp store selections).1[k]? = some g' ∧
        g'.id = g.id ∧
        (g.id ∉ (selections.filter (fun p => validRsvpStatus p.2)).map Prod.fst →
          g' = g) ∧
        (g'.rsvp_status = g.rsvp_status ∨ validRsvpStatus g'.rsvp_status = true)) ∧
    (∀ (k : Nat) (g : Guest), store[k]? = some g →
      (confirm_rsvp store selections).1[k]? =
        some (rsvpApply g (selections.filter (fun p => validRsvpStatus p.2)))) ∧
    (∀ (k : Nat) (g : Guest) (st : String), store[k]? = some g →
      (g.id, st) ∈ selections.filter (fun p => validRsvpStatus p.2) →
      (∀ u ∈ selections.filter (fun p => validRsvpStatus p.2),
        u.1 = g.id → u.2 = st) →
      (confirm_rsvp store selections).1[k]? =
        some { g with rsvp_status := st }) := by
  unfold confirm_rsvp
  rw [if_neg hne]
  by_cases hv : selections.filter (fun p => validRsvpStatus p.2) = []
  · rw [if_neg (by simpa using hv)]
    refine ⟨fun _ => rfl, fun h => absurd hv h, rfl, ?_, ?_, ?_⟩
    · intro k g hk
      exact ⟨g, hk, rfl, fun _ => rfl, Or.inl rfl⟩
    · intro k g hk
      rw [hv]
      exact hk
    · intro k g st hk hmem hall
      rw [hv] at hmem
      simp at hmem
  · rw [if_pos (by simpa using hv)]
    refine ⟨fun h => absurd h hv, fun _ => rfl, applyRsvpUpdates_length _ _,
      ?_, ?_, ?_⟩
    · intro k g hk
      obtain ⟨g', hg', hid, huntouched, hstatus⟩ :=
        applyRsvpUpdates_getElem?
          (selections.filter (fun p => validRsvpStatus p.2)) store k g hk
      refine ⟨g', hg', hid, huntouched, ?_⟩
      rcases hstatus with h | ⟨u, hu, he⟩
      · exact Or.inl h
      · exact Or.inr (by rw [he]; exact (List.mem_filter.mp hu).2)
    · intro k g hk
      exact applyRsvpUpdates_getElem?_eq _ store k g hk
    · intro k g st hk hmem hall
      rw [applyRsvpUpdates_getElem?_eq _ store k g hk,
        rsvpApply_applies _ g st hmem hall]

/-- Witness for C5 at a concrete submission: of the two pairs only
(1, confirmado) is valid, so the reported count is 1, the table keeps its
two rows, Ana's row is actually updated to "confirmado", and Bia's row —
targeted only by the dropped pair — stays "pendente". -/
theorem confirm_rsvp_spec_witness :
    (confirm_rsvp
        [⟨1, "Ana", none, "pendente", none⟩, ⟨2, "Bia", none, "pendente", none⟩]
        [(1, "confirmado"), (2, "bogus")]).2 =
      ⟨"Confirmação registrada para 1 convidado(s)!", "success"⟩ ∧
    (confirm_rsvp
        [⟨1, "Ana", none, "pendente", none⟩, ⟨2, "Bia", none, "pendente", none⟩]
        [(1, "confirmado"), (2, "bogus")]).1.length = 2 ∧
    (confirm_rsvp
        [⟨1, "Ana", none, "pendente", none⟩, ⟨2, "Bia", none, "pendente", none⟩]
        [(1, "confirmado"), (2, "bogus")]).1[0]? =
      some ⟨1, "Ana", none, "confirmado", none⟩ ∧
    (confirm_rsvp
        [⟨1, "Ana", none, "pendente", none⟩, ⟨2, "Bia", none, "pendente", none⟩]
        [(1, "confirmado"), (2, "bogus")]).1[1]? =
      some ⟨2, "Bia", none, "pendente", none⟩ := by
  have h := confirm_rsvp_spec
    [⟨1, "Ana", none, "pendente", none⟩, ⟨2, "Bia", none, "pendente", none⟩]
    [(1, "confirmado"), (2, "bogus")] (by decide)
  refine ⟨(h.2.1 (by decide)).trans (by decide), h.2.2.1, ?_, ?_⟩
  · exact h.2.2.2.2.2 0 ⟨1, "Ana", none, "pendente", none⟩ "confirmado" rfl
      (by decide) (by decide)
  · obtain ⟨g', hg', _, huntouched, _⟩ :=
      h.2.2.2.1 1 ⟨2, "Bia", none, "pendente", none⟩ rfl
    rw [hg', huntouched (by decide)]

/-- Claim C7: deleting a GuestGroup referenced by at least one guest fails
with a conflict ("danger" flash) and leaves both the group table and the
guest table unchanged; deleting a group with zero referencing guests
succeeds, removing exactly that group and touching no guest. -/
theorem delete_group_spec (groups : List GuestGroup) (guests : List Guest)
    (gid : Nat) (hex : ∃ gr ∈ groups, gr.id = gid) :
    ((guests.filter (fun g => g.group_id == some gid)).length > 0 →
      (delete_group groups guests gid).1 = (groups, guests) ∧
      (delete_group groups guests gid).2.category = "danger") ∧
    ((guests.filter (fun g => g.group_id == some gid)).length = 0 →
      (delete_group groups guests gid).1 =
        (groups.filter (fun x => x.id != gid), guests) ∧
      (delete_group groups guests gid).2.category = "success" ∧
      ∀ x ∈ (delete_group groups guests gid).1.1, x.id ≠ gid) := by
  obtain ⟨gr, hmem, hid⟩ := hex
  have hfind : (groups.find? (fun x => x.id == gid)).isSome := by
    rw [List.find?_isSome]
    exact ⟨gr, hmem, by simp [hid]⟩
  obtain ⟨gr', hgr'⟩ := Option.isSome_iff_exists.mp hfind
  unfold delete_group
  rw [hgr']
  dsimp only
  constructor
  · intro hpos
    rw [if_pos hpos]
    exact ⟨rfl, rfl⟩
  · intro hzero
    rw [if_neg (by omega)]
    refine ⟨rfl, rfl, ?_⟩
    intro x hx
    have hx' := (List.mem_filter.mp hx).2
    simpa using hx'

/-- Witness for C7 at concrete tables: deleting group 10, referenced by Ana,
conflicts and changes nothing; deleting the unreferenced group 20 succeeds. -/
theorem delete_group_spec_witness :
    (delete_group [⟨10, "Família"⟩] [⟨1, "Ana", none, "pendente", some 10⟩] 10).1 =
      ([⟨10, "Família"⟩], [⟨1, "Ana", none, "pendente", some 10⟩]) ∧
    (delete_group [⟨10, "Família"⟩] [⟨1, "Ana", none, "pendente", some 10⟩] 10).2.category =
      "danger" ∧
    (delete_group [⟨20, "Amigos"⟩] [] 20).2.category = "success" :=
  ⟨((delete_group_spec [⟨10, "Família"⟩] [⟨1, "Ana", none, "pendente", some 10⟩]
        10 (by decide)).1 (by decide)).1,
   ((delete_group_spec [⟨10, "Família"⟩] [⟨1, "Ana", none, "pendente", some 10⟩]
        10 (by decide)).1 (by decide)).2,
   ((delete_group_spec [⟨20, "Amigos"⟩] [] 20 (by decide)).2 (by decide)).2.1⟩

/-- Claim C10: the admin `edit_guest` persists whatever rsvp status string
the form carries — "pendente" is only the missing-field default — with no
membership check against the status enum, so a status outside
{pendente, confirmado, nao_confirmado} ends up stored; only the public
`confirm_rsvp` path filters the enum, silently dropping such a pair. -/
theorem edit_guest_persists_any_status (store : List Guest) (guest_id : Nat)
    (nm ph : String) (grp : Option String) (st : Option String) (g : Guest)
    (hmem : g ∈ store) (hgid : g.id = guest_id) (hname : pyStrip nm ≠ "") :
    (∃ g' ∈ (edit_guest store guest_id nm ph grp st).1,
      g'.id = guest_id ∧ g'.rsvp_status = st.getD "pendente") ∧
    (∀ (store' : List Guest) (i : Nat) (s : String),
      validRsvpStatus s = false →
      confirm_rsvp store' [(i, s)] =
        (store', ⟨"Nenhuma confirmação foi processada.", "warning"⟩)) := by
  constructor
  · have hfind : (store.find? (fun x => x.id == guest_id)).isSome := by
      rw [List.find?_isSome]
      exact ⟨g, hmem, by simp [hgid]⟩
    obtain ⟨g₀, hg₀⟩ := Option.isSome_iff_exists.mp hfind
    unfold edit_guest
    rw [hg₀]
    dsimp only
    rw [if_neg hname]
    refine ⟨{ g with name := pyStrip nm, phone := optStr (pyStrip ph), group_id := parseGroupId grp, rsvp_status := st.getD "pendente" },
      List.mem_map.mpr ⟨g, hmem, by simp [hgid]⟩, by simp [hgid], rfl⟩
  · intro store' i s hs
    have hupd : ([(i, s)].filter (fun p => validRsvpStatus p.2)) = [] := by
      simp [hs]
    unfold confirm_rsvp
    rw [if_neg (by simp : ¬([(i, s)] = ([] : List (Nat × String)))),
      if_neg (not_not_intro hupd)]

/-- Witness for C10 at a concrete admin edit: the status "talvez" is outside
the enum yet gets stored for guest 1, and a confirm_rsvp submission carrying
"talvez" is dropped without touching the store. -/
theorem edit_guest_persists_any_status_witness :
    (∃ g' ∈ (edit_guest [anaRow] 1 "Ana" "" none (some "talvez")).1,
      g'.id = 1 ∧ g'.rsvp_status = "talvez") ∧
    validRsvpStatus "talvez" = false ∧
    confirm_rsvp [anaRow] [(1, "talvez")] =
      ([anaRow], ⟨"Nenhuma confirmação foi processada.", "warning"⟩) :=
  ⟨(edit_guest_persists_any_status [anaRow] 1 "Ana" "" none (some "talvez")
      anaRow (by decide) rfl (by decide)).1,
   by decide,
   (edit_guest_persists_any_status [anaRow] 1 "Ana" "" none (some "talvez")
      anaRow (by decide) rfl (by decide)).2 [anaRow] 1 "talvez" (by decide)⟩

/-- The date/time block never touches the row's primary key. -/
theorem venueDateStep_id (v : VenueRow) (ed et : String) :
    (venueDateStep v ed et).1.id = v.id := by
  unfold venueDateStep
  split
  · split <;> rfl
  · split
    · split <;> rfl
    · rfl

/-- Both fields supplied and jointly parseable: the combined datetime is
stored and date/time are derived from it. -/
theorem venueDateStep_both_some (v : VenueRow) (ed et : String)
    (dt : Ymd × Hm) (hd : ed ≠ "") (ht : et ≠ "")
    (hp : strptimeDateTime ed et = some dt) :
    venueDateStep v ed et =
      ({ v with event_datetime := some dt, date := some dt.1,
                time := some dt.2 }, []) := by
  unfold venueDateStep
  rw [if_pos ⟨hd, ht⟩, hp]

/-- Both fields supplied but unparseable: a non-fatal warning, row untouched. -/
theorem venueDateStep_both_none (v : VenueRow) (ed et : String)
    (hd : ed ≠ "") (ht : et ≠ "") (hp : strptimeDateTime ed et = none) :
    venueDateStep v ed et =
      (v, [⟨"Formato de data ou hora inválido!", "warning"⟩]) := by
  unfold venueDateStep
  rw [if_pos ⟨hd, ht⟩, hp]

/-- Only a date supplied and parseable: only the date field is set. -/
theorem venueDateStep_date_some (v : VenueRow) (ed : String) (d : Ymd)
    (hd : ed ≠ "") (hp : strptimeDate ed = some d) :
    venueDateStep v ed "" = ({ v with date := some d }, []) := by
  unfold venueDateStep
  rw [if_neg (by simp), if_pos hd, hp]

/-- Only a date supplied, unparseable: a warning, row untouched. -/
theorem venueDateStep_date_none (v : VenueRow) (ed : String)
    (hd : ed ≠ "") (hp : strptimeDate ed = none) :
    venueDateStep v ed "" =
      (v, [⟨"Formato de data inválido!", "warning"⟩]) := by
  unfold venueDateStep
  rw [if_neg (by simp), if_pos hd, hp]

/-- Characterisation of `update_venue` on an empty `venue_info` table: a
fresh row is built, given the next key, and appended; the cache is reset. -/
theorem update_venue_insert_eq (now : Nat) (nm ad ml ds ed et : String)
    (cache : VenueCacheState) (hname : pyStrip nm ≠ "") :
    update_venue now nm ad ml ds ed et [] cache =
      ⟨[{ { (venueDateStep { freshVenueRow with name := some (pyStrip nm), address := optStr (pyStrip ad), map_link := optStr (pyStrip ml), description := optStr (pyStrip ds) } (pyStrip ed) (pyStrip et)).1 with updated_at := some now } with id := some (nextVenueId []) }],
       invalidate_venue_cache,
       (venueDateStep { freshVenueRow with name := some (pyStrip nm), address := optStr (pyStrip ad), map_link := optStr (pyStrip ml), description := optStr (pyStrip ds) } (pyStrip ed) (pyStrip et)).2 ++
         [⟨"Informações do local atualizadas com sucesso!", "success"⟩]⟩ := by
  unfold update_venue
  rw [if_neg hname]
  dsimp only [List.head?, Option.getD]
  rw [venueDateStep_id]
  rfl

/-- Characterisation of `update_venue` on a one-row table: the row is
mutated in place (same key), and the cache is reset. -/
theorem update_venue_single_eq (now : Nat) (nm ad ml ds ed et : String)
    (r : VenueRow) (i : Nat) (cache : VenueCacheState)
    (hname : pyStrip nm ≠ "") (hid : r.id = some i) :
    update_venue now nm ad ml ds ed et [r] cache =
      ⟨[{ (venueDateStep { r with name := some (pyStrip nm), address := optStr (pyStrip ad), map_link := optStr (pyStrip ml), description := optStr (pyStrip ds) } (pyStrip ed) (pyStrip et)).1 with updated_at := some now }],
       invalidate_venue_cache,
       (venueDateStep { r with name := some (pyStrip nm), address := optStr (pyStrip ad), map_link := optStr (pyStrip ml), description := optStr (pyStrip ds) } (pyStrip ed) (pyStrip et)).2 ++
         [⟨"Informações do local atualizadas com sucesso!", "success"⟩]⟩ := by
  unfold update_venue
  rw [if_neg hname]
  dsimp only [List.head?, Option.getD]
  rw [venueDateStep_id]
  dsimp only
  rw [hid]
  dsimp only [List.map]
  rw [if_pos hid]

/-- Claim C6: the venue update is an upsert — with no row one is created,
with an existing row that single row is mutated in place and the row count
stays 1; when both a date and a time string are supplied they are parsed
together into the combined event datetime and the separate date and time
fields are derived from it; when only a date is supplied only the date field
is parsed; unparseable strings produce a non-fatal warning and leave the
prior stored values untouched; and every successful update resets the Venue
Cache. -/
theorem update_venue_upsert_spec (now : Nat) (nm ad ml ds ed et : String)
    (r : VenueRow) (i : Nat) (cache : VenueCacheState)
    (hname : pyStrip nm ≠ "") (hid : r.id = some i) :
    (update_venue now nm ad ml ds ed et [] cache).rows.length = 1 ∧
    (∀ r' ∈ (update_venue now nm ad ml ds ed et [] cache).rows,
      r'.id.isSome) ∧
    (update_venue now nm ad ml ds ed et [r] cache).rows.length = 1 ∧
    (∀ r' ∈ (update_venue now nm ad ml ds ed et [r] cache).rows,
      r'.id = some i) ∧
    (update_venue now nm ad ml ds ed et [] cache).cache =
      invalidate_venue_cache ∧
    (update_venue now nm ad ml ds ed et [r] cache).cache =
      invalidate_venue_cache ∧
    (∀ dt, pyStrip ed ≠ "" → pyStrip et ≠ "" →
      strptimeDateTime (pyStrip ed) (pyStrip et) = some dt →
      ∀ r' ∈ (update_venue now nm ad ml ds ed et [r] cache).rows,
        r'.event_datetime = some dt ∧ r'.date = some dt.1 ∧
          r'.time = some dt.2) ∧
    (pyStrip ed ≠ "" → pyStrip et ≠ "" →
      strptimeDateTime (pyStrip ed) (pyStrip et) = none →
      (∀ r' ∈ (update_venue now nm ad ml ds ed et [r] cache).rows,
        r'.date = r.date ∧ r'.time = r.time ∧
          r'.event_datetime = r.event_datetime) ∧
      Flash.mk "Formato de data ou hora inválido!" "warning" ∈
        (update_venue now nm ad ml ds ed et [r] cache).flashes) ∧
    (∀ d, pyStrip ed ≠ "" → pyStrip et = "" →
      strptimeDate (pyStrip ed) = some d →
      ∀ r' ∈ (update_venue now nm ad ml ds ed et [r] cache).rows,
        r'.date = some d ∧ r'.time = r.time ∧
          r'.event_datetime = r.event_datetime) ∧
    (pyStrip ed ≠ "" → pyStrip et = "" →
      strptimeDate (pyStrip ed) = none →
      (∀ r' ∈ (update_venue now nm ad ml ds ed et [r] cache).rows,
        r'.date = r.date ∧ r'.time = r.time ∧
          r'.event_datetime = r.event_datetime) ∧
      Flash.mk "Formato de data inválido!" "warning" ∈
        (update_venue now nm ad ml ds ed et [r] cache).flashes) := by
  have hins := update_venue_insert_eq now nm ad ml ds ed et cache hname
  have huv := update_venue_single_eq now nm ad ml ds ed et r i cache hname hid
  refine ⟨?_, ?_, ?_, ?_, ?_, ?_, ?_, ?_, ?_, ?_⟩
  · rw [hins]
    rfl
  · rw [hins]
    intro r' hr'
    simp only [List.mem_singleton] at hr'
    subst hr'
    rfl
  · rw [huv]
    rfl
  · rw [huv]
    intro r' hr'
    simp only [List.mem_singleton] at hr'
    subst hr'
    show (venueDateStep _ _ _).1.id = some i
    rw [venueDateStep_id]
    exact hid
  · rw [hins]
  · rw [huv]
  · intro dt hd ht hp
    rw [huv]
    intro r' hr'
    simp only [List.mem_singleton] at hr'
    subst hr'
    rw [venueDateStep_both_some _ _ _ dt hd ht hp]
    exact ⟨rfl, rfl, rfl⟩
  · intro hd ht hp
    rw [huv]
    constructor
    · intro r' hr'
      simp only [List.mem_singleton] at hr'
      subst hr'
      rw [venueDateStep_both_none _ _ _ hd ht hp]
      exact ⟨rfl, rfl, rfl⟩
    · rw [venueDateStep_both_none _ _ _ hd ht hp]
      simp
  · intro d hd ht hp
    rw [huv, ht]
    intro r' hr'
    simp only [List.mem_singleton] at hr'
    subst hr'
    rw [venueDateStep_date_some _ _ d hd hp]
    exact ⟨rfl, rfl, rfl⟩
  · intro hd ht hp
    rw [huv, ht]
    constructor
    · intro r' hr'
      simp only [List.mem_singleton] at hr'
      subst hr'
      rw [venueDateStep_date_none _ _ hd hp]
      exact ⟨rfl, rfl, rfl⟩
    · rw [venueDateStep_date_none _ _ hd hp]
      simp

/-- Witness for C6 at the specification's own example: `updateVenue(name="X",
date="2025-08-15", time="16:00")` creates exactly one row on an empty table,
mutates the single existing row keeping the count at 1, resets the cache,
and stores the combined datetime 2025-08-15 16:00. -/
theorem update_venue_upsert_spec_witness :
    (update_venue 0 "X" "" "" "" "2025-08-15" "16:00" []
        initialCacheState).rows.length = 1 ∧
    (update_venue 0 "X" "" "" "" "2025-08-15" "16:00" [demoVenueRow]
        initialCacheState).rows.length = 1 ∧
    (update_venue 0 "X" "" "" "" "2025-08-15" "16:00" [demoVenueRow]
        initialCacheState).cache = invalidate_venue_cache ∧
    (∀ r' ∈ (update_venue 0 "X" "" "" "" "2025-08-15" "16:00" [demoVenueRow]
        initialCacheState).rows,
      r'.event_datetime = some (⟨2025, 8, 15⟩, ⟨16, 0⟩) ∧
        r'.date = some ⟨2025, 8, 15⟩ ∧ r'.time = some ⟨16, 0⟩) := by
  have h := update_venue_upsert_spec 0 "X" "" "" "" "2025-08-15" "16:00"
    demoVenueRow 1 initialCacheState (by decide) rfl
  exact ⟨h.1, h.2.2.1, h.2.2.2.2.2.1,
    h.2.2.2.2.2.2.1 (⟨2025, 8, 15⟩, ⟨16, 0⟩) (by decide) (by decide) (by decide)⟩

end WeddingRsvp
